import Mathlib

/-!
Shallow embedding of the banking-prototype front end (src/js/app.js):
input sanitization, login and transfer form validation, session flag,
screen routing, and the two submit handlers, together with theorems
checking the testable properties of the specification against them.

Conventions of the embedding:
* JS strings are Lean `String`s (lists of characters); `String.trim`
  in JS is modelled by `jsTrim` over the JS whitespace class, which is
  the same class the regex escape for whitespace matches.
* JS numbers that flow through the amount checks are modelled as `ℚ`;
  `parseFloat` (`sanitizeNumber`) is abstracted: validators take the
  parsed result as `Option ℚ`, `none` standing for the `null` that
  `sanitizeNumber` returns on an unparseable string.
* DOM state touched by the handlers (hidden flags, status texts,
  toasts, started timeouts, disabled state of the submit button, the
  stored session value) is an explicit record threaded through the
  handler functions.
-/

namespace Bank

/-- The JS whitespace class (WhiteSpace plus LineTerminator): what both
`String.prototype.trim` and a whitespace escape in a pattern match. -/
def isJsWhitespace (c : Char) : Bool :=
  let n := c.toNat
  n = 9 || n = 10 || n = 11 || n = 12 || n = 13 || n = 32 || n = 160 ||
  n = 5760 || (8192 ≤ n && n ≤ 8202) || n = 8232 || n = 8233 ||
  n = 8239 || n = 8287 || n = 12288 || n = 65279

/-- Trim on the character list: drop JS whitespace from both ends. -/
def trimList (l : List Char) : List Char :=
  ((l.dropWhile isJsWhitespace).reverse.dropWhile isJsWhitespace).reverse

/-- JS `value.trim()` on Lean strings. -/
def jsTrim (s : String) : String :=
  String.mk (trimList s.toList)

/-- One character of `sanitizeInput`: serializing a DOM text node
escapes the ampersand, the angle brackets and the no-break space;
every other character (quotes included) passes through unchanged. -/
def escapeHtmlChar (c : Char) : List Char :=
  if c = '&' then "&amp;".toList
  else if c = '<' then "&lt;".toList
  else if c = '>' then "&gt;".toList
  else if c = Char.ofNat 160 then "&nbsp;".toList
  else [c]

/-- The `sanitizeInput(str)` of app.js: `div.textContent = str` followed by
reading back `div.innerHTML`, i.e. the HTML serialization of a text
node holding `str`. -/
def sanitizeInput (s : String) : String :=
  String.mk ((s.toList.map escapeHtmlChar).flatten)

/-- Modelled from the spec: the sanitization the spec describes, which
entity-escapes all of the markup-significant characters including BOTH
quote characters. Used only to compare the wording of the spec with
`sanitizeInput` as the code implements it. -/
def specEscapeChar (c : Char) : List Char :=
  if c = '&' then "&amp;".toList
  else if c = '<' then "&lt;".toList
  else if c = '>' then "&gt;".toList
  else if c = '"' then "&quot;".toList
  else if c = Char.ofNat 39 then "&#39;".toList
  else [c]

/-- Modelled from the spec: sanitization with quotes escaped as well. -/
def specSanitize (s : String) : String :=
  String.mk ((s.toList.map specEscapeChar).flatten)

/-!
## Session flag (`isAuthed` / `setAuthed`)

`localStorage` holds at most one value under `session_key`; the stored
value is `Option String` (`none` = key absent).
-/

/-- The `isAuthed()` check: the stored value must be exactly the sentinel "1". -/
def isAuthed (store : Option String) : Bool :=
  store == some "1"

/-- The `setAuthed(value)` write: stores "1" or "0"; the result is the new stored
value (storage always succeeds in this prototype). -/
def setAuthed (value : Bool) : Option String :=
  some (if value then "1" else "0")

/-!
## BSB-Account format (`validateBSBAccount`)

The source tests `/^\d{3}-?\d{3}\s*\d{6,9}$/` on the trimmed value.
The matcher below compiles that anchored pattern directly: the digit
class, the whitespace class and the hyphen are mutually disjoint, so
the regex is deterministic and greedy matching is complete.
-/

/-- The regex digit class: exactly the ASCII digits 0-9. -/
def isDigitChar (c : Char) : Bool :=
  decide (48 ≤ c.toNat) && decide (c.toNat ≤ 57)

/-- Consume exactly `n` ASCII digits, returning the rest. -/
def takeDigits : Nat → List Char → Option (List Char)
  | 0, cs => some cs
  | n + 1, c :: cs => if isDigitChar c then takeDigits n cs else none
  | _ + 1, [] => none

/-- Consume one optional hyphen. -/
def skipHyphen (cs : List Char) : List Char :=
  match cs with
  | c :: tl => if c = '-' then tl else cs
  | [] => cs

/-- The anchored pattern of `validateBSBAccount`: three digits, an
optional hyphen, three digits, any run of whitespace, then six to nine
digits reaching the end of the string. -/
def matchBSB (cs : List Char) : Bool :=
  match takeDigits 3 cs with
  | none => false
  | some r1 =>
    match takeDigits 3 (skipHyphen r1) with
    | none => false
    | some r2 =>
      let acct := r2.dropWhile isJsWhitespace
      decide (6 ≤ acct.length) && decide (acct.length ≤ 9) &&
        acct.all isDigitChar

/-- The `validateBSBAccount(value)` test: the pattern applied to the trimmed
value. -/
def validateBSBAccount (value : String) : Bool :=
  matchBSB (jsTrim value).toList

/-- The declarative reading of the pattern, as the spec words it:
the string splits into exactly 3 digits, an optional hyphen, exactly
3 digits, optional whitespace, and 6 to 9 digits. -/
def bsbPattern (cs : List Char) : Prop :=
  ∃ d1 hy d2 ws acct : List Char,
    cs = d1 ++ hy ++ d2 ++ ws ++ acct ∧
    d1.length = 3 ∧ d1.all isDigitChar = true ∧
    (hy = [] ∨ hy = ['-']) ∧
    d2.length = 3 ∧ d2.all isDigitChar = true ∧
    ws.all isJsWhitespace = true ∧
    6 ≤ acct.length ∧ acct.length ≤ 9 ∧ acct.all isDigitChar = true

/-!
## Amount validation (`validateAmount`) and balances
-/

/-- JS `x.toFixed(2)` for the nonnegative values this prototype passes to
it: round half up to two decimals, cents zero-padded. The rounded
integer number of cents is `(200 * num + den) / (2 * den)`, which is
the floor of `100 x + 1/2` for the nonnegative arguments used here. -/
def toFixed2 (q : ℚ) : String :=
  let n : Int := (200 * q.num + (q.den : Int)) / (2 * (q.den : Int))
  let whole : Int := n / 100
  let cents : Nat := (n % 100).natAbs
  toString whole ++ "." ++
    (if cents < 10 then "0" ++ toString cents else toString cents)

/-- Result of `validateAmount`: the flag plus the single error message
of the first failing check, if any. -/
structure AmountResult where
  valid : Bool
  error : Option String
  deriving Repr, DecidableEq

/-- The `validateAmount(amount, balance)` checks run in source order —
parse failure, non-positive, above balance, above the 10000 ceiling —
and the first failure wins. -/
def validateAmount (amount : Option ℚ) (balance : ℚ) : AmountResult :=
  match amount with
  | none => ⟨false, some "Please enter a valid amount"⟩
  | some a =>
    if a ≤ 0 then
      ⟨false, some "Amount must be greater than $0.00"⟩
    else if a > balance then
      ⟨false, some ("Insufficient funds. Available: $" ++ toFixed2 balance)⟩
    else if a > 10000 then
      ⟨false, some "Transfer limit is $10,000.00 per transaction"⟩
    else
      ⟨true, none⟩

/-- The balance 2450.35 of account 001, written as the reduced
fraction 49007/20 so that it evaluates. -/
def bal001 : ℚ := ⟨49007, 20, by norm_num, by norm_num⟩

/-- Bridging lemma: `bal001` is the decimal literal of the source. -/
theorem bal001_eq : bal001 = 2450.35 := by
  conv_lhs => rw [← Rat.num_div_den bal001]
  have h1 : bal001.num = 49007 := rfl
  have h2 : bal001.den = 20 := rfl
  rw [h1, h2]
  norm_num

/-- The fixed account map of accounts 001 and 002 to their balances,
read with a logical-or fallback, so unknown identifiers fall back to
a zero balance. -/
def balances (fromAccount : String) : ℚ :=
  if fromAccount = "001" then bal001
  else if fromAccount = "002" then 8120
  else 0

/-!
## Login validation (`validateLogin`)
-/

/-- Result record of `validateLogin`, including the aria-invalid flags
the function sets on the two inputs. -/
structure LoginResult where
  isValid : Bool
  errors : List String
  cust : String
  pass : String
  custInvalid : Bool
  passInvalid : Bool
  deriving Repr, DecidableEq

/-- The `validateLogin()` procedure over the raw field values: trims both fields,
collects the required / minimum-length errors in source order, echoes
the sanitized customer id and the raw password. -/
def validateLogin (custV passV : String) : LoginResult :=
  let cust := jsTrim custV
  let pass := jsTrim passV
  let custErrors : List String :=
    if cust = "" then ["Customer ID is required"] else []
  let passErrors : List String :=
    if pass = "" then ["Password is required"]
    else if pass.length < 4 then ["Password must be at least 4 characters"]
    else []
  let errors := custErrors ++ passErrors
  { isValid := errors.length == 0
    errors := errors
    cust := sanitizeInput cust
    pass := pass
    custInvalid := cust == ""
    passInvalid := (pass == "") || decide (pass.length < 4) }

/-!
## Transfer validation (`validateTransfer`)
-/

/-- Result record of `validateTransfer`, including the aria-invalid
flags and the sanitized data for redisplay. -/
structure TransferResult where
  isValid : Bool
  errors : List String
  dataTo : String
  dataAmount : Option ℚ
  dataDesc : String
  dataFrom : String
  toInvalid : Bool
  amountInvalid : Bool
  descInvalid : Bool
  deriving Repr, DecidableEq

/-- The `validateTransfer()` procedure over the raw destination, the parse result of
the amount field, the raw description and the selected source account:
destination errors, then the single amount error, then the description
length error, in source push order. -/
def validateTransfer (toV : String) (amount : Option ℚ)
    (descV fromV : String) : TransferResult :=
  let dest := jsTrim toV
  let desc := jsTrim descV
  let balance := balances fromV
  let destErrors : List String :=
    if dest = "" then ["Destination account is required"]
    else if validateBSBAccount dest then []
    else ["Invalid BSB-Account format. Use: 062-000 12345678"]
  let amountValidation := validateAmount amount balance
  let amountErrors : List String :=
    if amountValidation.valid then [] else [amountValidation.error.getD ""]
  let descErrors : List String :=
    if desc.length > 40 then ["Description must be 40 characters or less"]
    else []
  let errors := destErrors ++ amountErrors ++ descErrors
  { isValid := errors.length == 0
    errors := errors
    dataTo := sanitizeInput dest
    dataAmount := amount
    dataDesc := sanitizeInput desc
    dataFrom := fromV
    toInvalid := (dest == "") || !validateBSBAccount dest
    amountInvalid := !amountValidation.valid
    descInvalid := decide (desc.length > 40) }

/-!
## Screen routing (`show`)
-/

/-- The visibility state the router touches: the `hidden` and
`aria-hidden` flags of the four sections, the tab bar, and the active
markers of the three tabs. -/
structure UIState where
  loginHidden : Bool
  dashboardHidden : Bool
  transactionsHidden : Bool
  transferHidden : Bool
  loginAriaHidden : Bool
  dashboardAriaHidden : Bool
  transactionsAriaHidden : Bool
  transferAriaHidden : Bool
  tabNavHidden : Bool
  dashboardTabActive : Bool
  transactionsTabActive : Bool
  transferTabActive : Bool
  deriving Repr, DecidableEq

/-- The `show(id)` routine: the hidden and aria-hidden flags of every section become
`sec !== id`; the tab bar is hidden unless `id` is an app screen; on
an app screen the matching tab becomes active and the others inactive
(`updateActiveTab`). The transient screen-reader announcement is
appended and auto-removed and leaves no state behind, so it is not a
field here. -/
def showScreen (id : String) (s : UIState) : UIState :=
  let isAppScreen := id == "dashboard" || id == "transactions" || id == "transfer"
  { s with
    loginHidden := "login" != id
    dashboardHidden := "dashboard" != id
    transactionsHidden := "transactions" != id
    transferHidden := "transfer" != id
    loginAriaHidden := "login" != id
    dashboardAriaHidden := "dashboard" != id
    transactionsAriaHidden := "transactions" != id
    transferAriaHidden := "transfer" != id
    tabNavHidden := !isAppScreen
    dashboardTabActive :=
      if isAppScreen then id == "dashboard" else s.dashboardTabActive
    transactionsTabActive :=
      if isAppScreen then id == "transactions" else s.transactionsTabActive
    transferTabActive :=
      if isAppScreen then id == "transfer" else s.transferTabActive }

/-!
## Submit handlers
-/

/-- The application state the two submit handlers read and write. The
`delays` list records each simulated-async wait the handler starts, in
order, by its duration in milliseconds. -/
structure AppState where
  ui : UIState
  store : Option String
  loginStatusText : String
  transferStatusText : String
  toasts : List String
  delays : List Nat
  loginBtnDisabled : Bool
  transferBtnDisabled : Bool
  logoutBtnHidden : Bool
  deriving Repr, DecidableEq

/-- The login submit handler, run to completion (the `await` always
resumes; there is no cancellation). On invalid input it writes the
joined error text inline, toasts the first error, and returns. On
valid input it disables the button, shows the progress text, waits
1000 ms, stores the session flag, reveals the logout button, clears
the status, re-enables the button, toasts success and routes to the
dashboard. -/
def loginSubmit (custV passV : String) (s : AppState) : AppState :=
  let v := validateLogin custV passV
  if v.isValid then
    let s1 := { s with loginBtnDisabled := true,
                       loginStatusText := "Authenticating..." }
    let s2 := { s1 with delays := s1.delays ++ [1000] }
    let s3 := { s2 with store := setAuthed true, logoutBtnHidden := false }
    let s4 := { s3 with loginStatusText := "", loginBtnDisabled := false }
    let s5 := { s4 with toasts := s4.toasts ++ ["Successfully logged in!"] }
    { s5 with ui := showScreen "dashboard" s5.ui }
  else
    { s with
      loginStatusText := String.intercalate ". " v.errors ++ ".",
      toasts := s.toasts ++ [v.errors.headD ""] }

/-- The transfer submit handler, run to completion. On invalid input
it writes the first error inline, toasts it, and returns. On valid
input it disables the button, shows the progress text, waits 1500 ms,
clears the status, re-enables the button and toasts the success
message built from the sanitized data. -/
def transferSubmit (toV : String) (amount : Option ℚ)
    (descV fromV : String) (s : AppState) : AppState :=
  let v := validateTransfer toV amount descV fromV
  if v.isValid then
    let s1 := { s with transferBtnDisabled := true,
                       transferStatusText := "Processing transfer..." }
    let s2 := { s1 with delays := s1.delays ++ [1500] }
    let s3 := { s2 with transferStatusText := "",
                        transferBtnDisabled := false }
    let amtStr := (v.dataAmount.map toFixed2).getD ""
    { s3 with toasts := s3.toasts ++
        ["Successfully transferred $" ++ amtStr ++ " to " ++ v.dataTo] }
  else
    { s with
      transferStatusText := v.errors.headD "",
      toasts := s.toasts ++ [v.errors.headD ""] }

/-!
## Character-class and trimming lemmas
-/

/-- An ASCII digit is not JS whitespace. -/
theorem digit_not_ws {c : Char} (h : isDigitChar c = true) :
    isJsWhitespace c = false := by
  simp only [isDigitChar, Bool.and_eq_true, decide_eq_true_eq] at h
  simp only [isJsWhitespace, Bool.or_eq_false_iff, Bool.and_eq_false_iff,
    decide_eq_false_iff_not]
  omega

/-- An ASCII digit is not the hyphen. -/
theorem digit_ne_hyphen {c : Char} (h : isDigitChar c = true) : c ≠ '-' := by
  intro he
  subst he
  exact absurd h (by decide)

/-- The first element surviving `dropWhile` falsifies the predicate. -/
theorem dropWhile_head_false {p : α → Bool} {l : List α} {a : α} {t : List α}
    (h : l.dropWhile p = a :: t) : p a = false := by
  induction l with
  | nil => simp at h
  | cons b l ih =>
    rw [List.dropWhile_cons] at h
    by_cases hb : p b
    · rw [if_pos hb] at h
      exact ih h
    · rw [if_neg hb] at h
      cases h
      exact Bool.eq_false_iff.mpr hb

/-- Idempotence of `dropWhile`. -/
theorem dropWhile_dropWhile (p : α → Bool) (l : List α) :
    (l.dropWhile p).dropWhile p = l.dropWhile p := by
  cases h : l.dropWhile p with
  | nil => simp
  | cons a t =>
    have ha : p a = false := dropWhile_head_false h
    rw [List.dropWhile_cons_of_neg (by simp [ha])]

/-- A `dropWhile` result is a suffix of the input, exhibited explicitly. -/
theorem dropWhile_suffix_ex (p : α → Bool) (l : List α) :
    ∃ t, t ++ l.dropWhile p = l := by
  induction l with
  | nil => exact ⟨[], rfl⟩
  | cons a l ih =>
    by_cases ha : p a
    · obtain ⟨t, ht⟩ := ih
      exact ⟨a :: t, by simp [List.dropWhile_cons_of_pos ha, ht]⟩
    · exact ⟨[], by simp [List.dropWhile_cons_of_neg ha]⟩

/-- Idempotence of `trimList`. -/
theorem trimList_idem (l : List Char) : trimList (trimList l) = trimList l := by
  have step1 : (trimList l).dropWhile isJsWhitespace = trimList l := by
    obtain ⟨t, ht⟩ :=
      dropWhile_suffix_ex isJsWhitespace (l.dropWhile isJsWhitespace).reverse
    have hm : l.dropWhile isJsWhitespace = trimList l ++ t.reverse := by
      have := congrArg List.reverse ht
      simpa [trimList] using this.symm
    cases hc : trimList l with
    | nil => simp
    | cons a t' =>
      refine List.dropWhile_cons_of_neg ?_
      have : l.dropWhile isJsWhitespace = a :: (t' ++ t.reverse) := by
        rw [hm, hc]
        simp
      simp [dropWhile_head_false this]
  have step2 : (trimList l).reverse.dropWhile isJsWhitespace =
      (trimList l).reverse := by
    have : (trimList l).reverse =
        ((l.dropWhile isJsWhitespace).reverse.dropWhile isJsWhitespace) := by
      simp [trimList]
    rw [this, dropWhile_dropWhile]
  have hdef : trimList (trimList l) =
      (((trimList l).dropWhile isJsWhitespace).reverse.dropWhile
        isJsWhitespace).reverse := rfl
  rw [hdef, step1, step2, List.reverse_reverse]

/-- Idempotence of `jsTrim`, like `trim` of JS. -/
theorem jsTrim_idem (s : String) : jsTrim (jsTrim s) = jsTrim s := by
  simp only [jsTrim]
  exact congrArg String.mk (trimList_idem s.toList)

/-- Trimming the already-trimmed destination changes nothing, so
`validateBSBAccount` agrees on a value and on its trimmed form. -/
theorem validateBSBAccount_jsTrim (v : String) :
    validateBSBAccount (jsTrim v) = validateBSBAccount v := by
  simp only [validateBSBAccount]
  rw [jsTrim_idem]

/-!
## The BSB matcher agrees with the declarative pattern
-/

/-- A `takeDigits n` call succeeds exactly on a prefix of `n` digits, and
returns the rest. -/
theorem takeDigits_eq_some : ∀ (n : Nat) (cs r : List Char),
    takeDigits n cs = some r ↔
      ∃ d, cs = d ++ r ∧ d.length = n ∧ d.all isDigitChar = true := by
  intro n
  induction n with
  | zero =>
    intro cs r
    simp only [takeDigits, Option.some.injEq]
    constructor
    · rintro rfl
      exact ⟨[], rfl, rfl, rfl⟩
    · rintro ⟨d, hcs, hlen, _⟩
      rw [List.length_eq_zero.mp hlen] at hcs
      simpa using hcs
  | succ n ih =>
    intro cs r
    cases cs with
    | nil =>
      simp only [takeDigits]
      constructor
      · intro h
        simp at h
      · rintro ⟨d, hd, hlen, _⟩
        have h0 := congrArg List.length hd
        simp only [List.length_nil, List.length_append] at h0
        exact absurd hlen (by omega)
    | cons c tl =>
      simp only [takeDigits]
      by_cases hc : isDigitChar c
      · rw [if_pos hc, ih]
        constructor
        · rintro ⟨d, rfl, hlen, hall⟩
          exact ⟨c :: d, rfl, by simp [hlen], by simp [hc, hall]⟩
        · rintro ⟨d, hd, hlen, hall⟩
          cases d with
          | nil => simp at hlen
          | cons e d' =>
            rw [List.cons_append] at hd
            injection hd with hce htl
            subst hce
            subst htl
            simp only [List.all_cons, Bool.and_eq_true] at hall
            refine ⟨d', rfl, ?_, hall.2⟩
            simpa using hlen
      · rw [if_neg hc]
        constructor
        · intro h
          simp at h
        · rintro ⟨d, hd, hlen, hall⟩
          cases d with
          | nil => simp at hlen
          | cons e d' =>
            rw [List.cons_append] at hd
            injection hd with hce htl
            subst hce
            simp only [List.all_cons, Bool.and_eq_true] at hall
            exact absurd hall.1 hc

/-- The compiled matcher accepts exactly the strings of the declarative
pattern: 3 digits, optional hyphen, 3 digits, optional whitespace,
6 to 9 digits. -/
theorem matchBSB_iff (cs : List Char) :
    matchBSB cs = true ↔ bsbPattern cs := by
  constructor
  · intro h
    unfold matchBSB at h
    cases h1 : takeDigits 3 cs with
    | none =>
      rw [h1] at h
      simp at h
    | some r1 =>
      rw [h1] at h
      dsimp only at h
      cases h2 : takeDigits 3 (skipHyphen r1) with
      | none =>
        rw [h2] at h
        simp at h
      | some r2 =>
        rw [h2] at h
        dsimp only at h
        simp only [Bool.and_eq_true, decide_eq_true_eq] at h
        obtain ⟨⟨hlen6, hlen9⟩, hdig⟩ := h
        obtain ⟨d1, rfl, hd1len, hd1⟩ := (takeDigits_eq_some 3 cs r1).mp h1
        obtain ⟨d2, hr, hd2len, hd2⟩ :=
          (takeDigits_eq_some 3 (skipHyphen r1) r2).mp h2
        have hsplit : r2 = r2.takeWhile isJsWhitespace ++
            r2.dropWhile isJsWhitespace :=
          (List.takeWhile_append_dropWhile ..).symm
        have hws : (r2.takeWhile isJsWhitespace).all isJsWhitespace = true :=
          List.all_takeWhile
        cases hr1 : r1 with
        | nil =>
          rw [hr1] at hr
          simp only [skipHyphen] at hr
          have h0 := congrArg List.length hr
          simp only [List.length_nil, List.length_append] at h0
          exact absurd hd2len (by omega)
        | cons c tl =>
          by_cases hhy : c = '-'
          · subst hhy
            rw [hr1] at hr
            simp [skipHyphen] at hr
            exact ⟨d1, ['-'], d2, r2.takeWhile isJsWhitespace,
              r2.dropWhile isJsWhitespace, by simp [hr],
              hd1len, hd1, Or.inr rfl, hd2len, hd2, hws, hlen6, hlen9, hdig⟩
          · rw [hr1] at hr
            simp only [skipHyphen, if_neg hhy] at hr
            exact ⟨d1, [], d2, r2.takeWhile isJsWhitespace,
              r2.dropWhile isJsWhitespace, by simp [hr],
              hd1len, hd1, Or.inl rfl, hd2len, hd2, hws, hlen6, hlen9, hdig⟩
  · rintro ⟨d1, hy, d2, ws, acct, rfl, hd1len, hd1, hhy, hd2len, hd2, hws,
      hl6, hl9, hacct⟩
    have h1 : takeDigits 3 (d1 ++ (hy ++ d2 ++ ws ++ acct)) =
        some (hy ++ d2 ++ ws ++ acct) :=
      (takeDigits_eq_some 3 _ _).mpr ⟨d1, by simp, hd1len, hd1⟩
    have hskip : skipHyphen (hy ++ d2 ++ ws ++ acct) = d2 ++ ws ++ acct := by
      rcases hhy with rfl | rfl
      · simp only [List.nil_append]
        obtain ⟨a, b, c, rfl⟩ := List.length_eq_three.mp hd2len
        simp only [List.all_cons, Bool.and_eq_true] at hd2
        simp [skipHyphen, digit_ne_hyphen hd2.1]
      · simp [skipHyphen]
    have h2 : takeDigits 3 (skipHyphen (hy ++ d2 ++ ws ++ acct)) =
        some (ws ++ acct) := by
      rw [hskip]
      exact (takeDigits_eq_some 3 _ _).mpr ⟨d2, by simp, hd2len, hd2⟩
    have hdrop : (ws ++ acct).dropWhile isJsWhitespace = acct := by
      rw [List.dropWhile_append_of_pos (by
        intro a ha
        exact (List.all_eq_true.mp hws) a ha)]
      cases hac : acct with
      | nil =>
        rw [hac] at hl6
        simp at hl6
      | cons a t =>
        refine List.dropWhile_cons_of_neg ?_
        have hdig : isDigitChar a = true := by
          rw [hac] at hacct
          simp only [List.all_cons, Bool.and_eq_true] at hacct
          exact hacct.1
        simp [digit_not_ws hdig]
    have hassoc : d1 ++ hy ++ d2 ++ ws ++ acct =
        d1 ++ (hy ++ d2 ++ ws ++ acct) := by simp
    unfold matchBSB
    rw [hassoc, h1]
    dsimp only
    rw [h2]
    dsimp only
    rw [hdrop]
    simp [hl6, hl9, hacct]

/-!
## Characterizations of the validation results
-/

/-- The fixed account map takes only three values. -/
theorem balances_cases (f : String) :
    balances f = bal001 ∨ balances f = 8120 ∨ balances f = 0 := by
  unfold balances
  split_ifs <;> simp

/-- Every available balance is nonnegative. -/
theorem balances_nonneg (f : String) : 0 ≤ balances f := by
  rcases balances_cases f with h | h | h <;> rw [h] <;>
    first
      | (rw [bal001_eq]; norm_num)
      | norm_num

/-- Every available balance is below the 10000 ceiling. -/
theorem balances_le (f : String) : balances f ≤ 10000 := by
  rcases balances_cases f with h | h | h <;> rw [h] <;>
    first
      | (rw [bal001_eq]; norm_num)
      | norm_num

/-- A missing parse yields the parse error. -/
theorem validateAmount_none (b : ℚ) :
    validateAmount none b = ⟨false, some "Please enter a valid amount"⟩ := rfl

/-- A non-positive amount yields the positivity error. -/
theorem validateAmount_nonpos {a : ℚ} (b : ℚ) (h : a ≤ 0) :
    validateAmount (some a) b =
      ⟨false, some "Amount must be greater than $0.00"⟩ := by
  unfold validateAmount
  dsimp only
  rw [if_pos h]

/-- A positive amount above the balance yields the insufficient-funds
error, even when it also breaks the ceiling: the balance check comes
first in the source. -/
theorem validateAmount_over_balance {a b : ℚ} (hb : b < a) (hnn : 0 ≤ b) :
    validateAmount (some a) b =
      ⟨false, some ("Insufficient funds. Available: $" ++ toFixed2 b)⟩ := by
  unfold validateAmount
  dsimp only
  rw [if_neg (by linarith), if_pos hb]

/-- An amount inside all three bounds validates. -/
theorem validateAmount_valid {a b : ℚ} (h0 : 0 < a) (hb : a ≤ b)
    (hc : a ≤ 10000) :
    validateAmount (some a) b = ⟨true, none⟩ := by
  unfold validateAmount
  dsimp only
  rw [if_neg (by linarith), if_neg (not_lt.mpr hb), if_neg (not_lt.mpr hc)]

/-- The error list of `validateTransfer` is the concatenation of the
destination, amount and description errors, in push order. -/
theorem transfer_errors_eq (toV : String) (amount : Option ℚ)
    (descV fromV : String) :
    (validateTransfer toV amount descV fromV).errors =
      (if jsTrim toV = "" then ["Destination account is required"]
       else if validateBSBAccount (jsTrim toV) then []
       else ["Invalid BSB-Account format. Use: 062-000 12345678"]) ++
      (if (validateAmount amount (balances fromV)).valid then []
       else [(validateAmount amount (balances fromV)).error.getD ""]) ++
      (if (jsTrim descV).length > 40
       then ["Description must be 40 characters or less"] else []) := rfl

/-- The `isValid` field of `validateTransfer` is emptiness of the error list. -/
theorem transfer_isValid_eq (toV : String) (amount : Option ℚ)
    (descV fromV : String) :
    (validateTransfer toV amount descV fromV).isValid =
      ((validateTransfer toV amount descV fromV).errors.length == 0) := rfl

/-- Membership in the transfer error list, rule by rule. -/
theorem mem_transfer_errors (msg : String) (toV : String) (amount : Option ℚ)
    (descV fromV : String) :
    msg ∈ (validateTransfer toV amount descV fromV).errors ↔
      ((jsTrim toV = "" ∧ msg = "Destination account is required") ∨
       (jsTrim toV ≠ "" ∧ validateBSBAccount (jsTrim toV) = false ∧
         msg = "Invalid BSB-Account format. Use: 062-000 12345678") ∨
       ((validateAmount amount (balances fromV)).valid = false ∧
         msg = (validateAmount amount (balances fromV)).error.getD "") ∨
       ((jsTrim descV).length > 40 ∧
         msg = "Description must be 40 characters or less")) := by
  rw [transfer_errors_eq]
  by_cases h1 : jsTrim toV = "" <;>
    by_cases h2 : validateBSBAccount (jsTrim toV) = true <;>
    by_cases h3 : (validateAmount amount (balances fromV)).valid = true <;>
    by_cases h4 : (jsTrim descV).length > 40 <;>
    simp [h1, h2, h3, h4, List.mem_append] <;> tauto

/-- The transfer form is valid exactly when every rule passes. -/
theorem transfer_isValid_iff (toV : String) (amount : Option ℚ)
    (descV fromV : String) :
    (validateTransfer toV amount descV fromV).isValid = true ↔
      (jsTrim toV ≠ "" ∧ validateBSBAccount (jsTrim toV) = true ∧
       (validateAmount amount (balances fromV)).valid = true ∧
       (jsTrim descV).length ≤ 40) := by
  rw [transfer_isValid_eq, transfer_errors_eq]
  by_cases h1 : jsTrim toV = "" <;>
    by_cases h2 : validateBSBAccount (jsTrim toV) = true <;>
    by_cases h3 : (validateAmount amount (balances fromV)).valid = true <;>
    by_cases h4 : (jsTrim descV).length > 40 <;>
    simp [h1, h2, h3, h4] <;> omega

/-- The error list of `validateLogin`, in push order. -/
theorem login_errors_eq (custV passV : String) :
    (validateLogin custV passV).errors =
      (if jsTrim custV = "" then ["Customer ID is required"] else []) ++
      (if jsTrim passV = "" then ["Password is required"]
       else if (jsTrim passV).length < 4
       then ["Password must be at least 4 characters"] else []) := rfl

/-- The `isValid` field of `validateLogin` is emptiness of the error list. -/
theorem login_isValid_eq (custV passV : String) :
    (validateLogin custV passV).isValid =
      ((validateLogin custV passV).errors.length == 0) := rfl

/-- Membership in the login error list, rule by rule. -/
theorem mem_login_errors (msg custV passV : String) :
    msg ∈ (validateLogin custV passV).errors ↔
      ((jsTrim custV = "" ∧ msg = "Customer ID is required") ∨
       (jsTrim passV = "" ∧ msg = "Password is required") ∨
       (jsTrim passV ≠ "" ∧ (jsTrim passV).length < 4 ∧
         msg = "Password must be at least 4 characters")) := by
  rw [login_errors_eq]
  by_cases h1 : jsTrim custV = "" <;>
    by_cases h2 : jsTrim passV = "" <;>
    by_cases h3 : (jsTrim passV).length < 4 <;>
    simp [h1, h2, h3, List.mem_append] <;> tauto

/-- The login form is valid exactly when the customer id is non-empty
and the trimmed password has at least 4 characters. -/
theorem login_isValid_iff (custV passV : String) :
    (validateLogin custV passV).isValid = true ↔
      (jsTrim custV ≠ "" ∧ 4 ≤ (jsTrim passV).length) := by
  rw [login_isValid_eq, login_errors_eq]
  by_cases h1 : jsTrim custV = "" <;>
    by_cases h2 : jsTrim passV = "" <;>
    by_cases h3 : (jsTrim passV).length < 4 <;>
    simp [h1, h2, h3] <;> omega

/-!
## Sanitization lemmas
-/

/-- A character outside the escape set passes through unchanged. -/
theorem escapeHtmlChar_of_plain {c : Char} (h1 : c ≠ '&') (h2 : c ≠ '<')
    (h3 : c ≠ '>') (h4 : c ≠ Char.ofNat 160) : escapeHtmlChar c = [c] := by
  unfold escapeHtmlChar
  rw [if_neg h1, if_neg h2, if_neg h3, if_neg h4]

/-- No escape output contains a raw opening angle bracket. -/
theorem lt_not_mem_escapeHtmlChar (c : Char) : '<' ∉ escapeHtmlChar c := by
  unfold escapeHtmlChar
  split_ifs with h1 h2 h3 h4
  · decide
  · decide
  · decide
  · decide
  · simp only [List.mem_singleton]
    intro h
    exact h2 h.symm

/-- No escape output contains a raw closing angle bracket. -/
theorem gt_not_mem_escapeHtmlChar (c : Char) : '>' ∉ escapeHtmlChar c := by
  unfold escapeHtmlChar
  split_ifs with h1 h2 h3 h4
  · decide
  · decide
  · decide
  · decide
  · simp only [List.mem_singleton]
    intro h
    exact h3 h.symm

/-- A list with no escapable character is left unchanged. -/
theorem sanitize_plain_aux : ∀ l : List Char,
    (∀ c ∈ l, c ≠ '&' ∧ c ≠ '<' ∧ c ≠ '>' ∧ c ≠ Char.ofNat 160) →
    (l.map escapeHtmlChar).flatten = l := by
  intro l
  induction l with
  | nil => intro _; rfl
  | cons c t ih =>
    intro hl
    obtain ⟨h1, h2, h3, h4⟩ := hl c (by simp)
    simp only [List.map_cons, List.flatten_cons]
    rw [escapeHtmlChar_of_plain h1 h2 h3 h4,
      ih (fun d hd => hl d (List.mem_cons_of_mem _ hd))]
    rfl

/-!
## The claims
-/

/-- The single amount error is always one of four fixed messages (or
the empty fallback, which never occurs). -/
theorem validateAmount_error_cases (amount : Option ℚ) (b : ℚ) :
    (validateAmount amount b).error.getD "" = "Please enter a valid amount" ∨
    (validateAmount amount b).error.getD "" =
      "Amount must be greater than $0.00" ∨
    (validateAmount amount b).error.getD "" =
      ("Insufficient funds. Available: $" ++ toFixed2 b) ∨
    (validateAmount amount b).error.getD "" =
      "Transfer limit is $10,000.00 per transaction" ∨
    (validateAmount amount b).error.getD "" = "" := by
  cases amount with
  | none => exact Or.inl rfl
  | some a =>
    unfold validateAmount
    dsimp only
    split_ifs <;> simp

/-- Claim C1 (amended): `validateTransfer` reports the positivity
message for amount ≤ 0 and the insufficient-funds message for amount
above the selected balance; but because the balance check precedes the
ceiling check and both fixed balances lie below 10000, an amount above
10000 always yields the insufficient-funds message and NEVER the
transfer-limit message; an amount inside all three bounds with a
well-formed destination and a description of at most 40 characters
validates. -/
theorem transfer_amount_bound_messages (toV descV fromV : String) (a : ℚ) :
    (a ≤ 0 →
      "Amount must be greater than $0.00" ∈
        (validateTransfer toV (some a) descV fromV).errors) ∧
    (balances fromV < a →
      ("Insufficient funds. Available: $" ++ toFixed2 (balances fromV)) ∈
        (validateTransfer toV (some a) descV fromV).errors) ∧
    (10000 < a →
      ("Insufficient funds. Available: $" ++ toFixed2 (balances fromV)) ∈
        (validateTransfer toV (some a) descV fromV).errors ∧
      "Transfer limit is $10,000.00 per transaction" ∉
        (validateTransfer toV (some a) descV fromV).errors) ∧
    (validateBSBAccount (jsTrim toV) = true → 0 < a →
      a ≤ balances fromV → a ≤ 10000 → (jsTrim descV).length ≤ 40 →
      (validateTransfer toV (some a) descV fromV).isValid = true) := by
  refine ⟨?_, ?_, ?_, ?_⟩
  · intro h
    have hv := validateAmount_nonpos (balances fromV) h
    rw [mem_transfer_errors, hv]
    right; right; left
    exact ⟨rfl, rfl⟩
  · intro h
    have hv := validateAmount_over_balance h (balances_nonneg fromV)
    rw [mem_transfer_errors, hv]
    right; right; left
    exact ⟨rfl, rfl⟩
  · intro h
    have hb : balances fromV < a := lt_of_le_of_lt (balances_le fromV) h
    have hv := validateAmount_over_balance hb (balances_nonneg fromV)
    constructor
    · rw [mem_transfer_errors, hv]
      right; right; left
      exact ⟨rfl, rfl⟩
    · intro hmem
      rw [mem_transfer_errors, hv] at hmem
      rcases hmem with ⟨_, habs⟩ | ⟨_, _, habs⟩ | ⟨_, habs⟩ | ⟨_, habs⟩
      · exact absurd habs (by decide)
      · exact absurd habs (by decide)
      · rcases balances_cases fromV with hb0 | hb0 | hb0 <;>
          rw [hb0] at habs <;> exact absurd habs (by decide)
      · exact absurd habs (by decide)
  · intro hbsb h0 hb hc hd
    rw [transfer_isValid_iff]
    refine ⟨?_, hbsb, ?_, hd⟩
    · intro h0e
      rw [h0e] at hbsb
      exact absurd hbsb (by decide)
    · rw [validateAmount_valid h0 hb hc]

/-- Claim C1 witness: each amount rule at a concrete input. -/
theorem transfer_amount_bound_messages_witness :
    ("Amount must be greater than $0.00" ∈
      (validateTransfer "062-000 12345678" (some (-5)) "" "001").errors) ∧
    (("Insufficient funds. Available: $" ++ toFixed2 (balances "001")) ∈
      (validateTransfer "062-000 12345678" (some 3000) "" "001").errors) ∧
    ("Transfer limit is $10,000.00 per transaction" ∉
      (validateTransfer "062-000 12345678" (some 15000) "" "001").errors) ∧
    (validateTransfer "062-000 12345678" (some 50) "" "001").isValid
      = true :=
  ⟨(transfer_amount_bound_messages "062-000 12345678" "" "001" (-5)).1
      (by decide),
   (transfer_amount_bound_messages "062-000 12345678" "" "001" 3000).2.1
      (by decide),
   ((transfer_amount_bound_messages "062-000 12345678" "" "001" 15000).2.2.1
      (by decide)).2,
   (transfer_amount_bound_messages "062-000 12345678" "" "001" 50).2.2.2
      (by decide) (by decide) (by decide) (by decide) (by decide)⟩

/-- Claim C1 counterexample: at amount 15000 the transfer-limit
message is NOT in the errors list; the insufficient-funds message
appears instead. -/
theorem transfer_limit_message_unreachable :
    ((15000 : ℚ) > 10000) ∧
    ("Transfer limit is $10,000.00 per transaction" ∉
      (validateTransfer "062-000 12345678" (some 15000) "" "001").errors) ∧
    ("Insufficient funds. Available: $2450.35" ∈
      (validateTransfer "062-000 12345678" (some 15000) "" "001").errors) := by
  decide

/-- Claim C2 (amended): destination presence, destination format,
amount parse, and description length each contribute their message
independently; among the amount bound rules only the FIRST failing one
(in the order parse, positivity, balance, ceiling) contributes, so a
ceiling violation that also exceeds the balance leaves no
transfer-limit message. -/
theorem transfer_collects_rule_errors (toV descV fromV : String)
    (amount : Option ℚ) :
    (jsTrim toV = "" →
      "Destination account is required" ∈
        (validateTransfer toV amount descV fromV).errors) ∧
    (jsTrim toV ≠ "" → validateBSBAccount toV = false →
      "Invalid BSB-Account format. Use: 062-000 12345678" ∈
        (validateTransfer toV amount descV fromV).errors) ∧
    (amount = none →
      "Please enter a valid amount" ∈
        (validateTransfer toV amount descV fromV).errors) ∧
    (∀ a : ℚ, amount = some a → a ≤ 0 →
      "Amount must be greater than $0.00" ∈
        (validateTransfer toV amount descV fromV).errors) ∧
    (∀ a : ℚ, amount = some a → balances fromV < a →
      ("Insufficient funds. Available: $" ++ toFixed2 (balances fromV)) ∈
        (validateTransfer toV amount descV fromV).errors) ∧
    ((jsTrim descV).length > 40 →
      "Description must be 40 characters or less" ∈
        (validateTransfer toV amount descV fromV).errors) ∧
    (∀ a : ℚ, amount = some a → 10000 < a →
      "Transfer limit is $10,000.00 per transaction" ∉
        (validateTransfer toV amount descV fromV).errors) := by
  refine ⟨?_, ?_, ?_, ?_, ?_, ?_, ?_⟩
  · intro h
    rw [mem_transfer_errors]
    exact Or.inl ⟨h, rfl⟩
  · intro hne hfmt
    rw [mem_transfer_errors]
    right; left
    refine ⟨hne, ?_, rfl⟩
    rw [validateBSBAccount_jsTrim]
    exact hfmt
  · rintro rfl
    rw [mem_transfer_errors]
    right; right; left
    exact ⟨rfl, rfl⟩
  · rintro a rfl h
    have hv := validateAmount_nonpos (balances fromV) h
    rw [mem_transfer_errors, hv]
    right; right; left
    exact ⟨rfl, rfl⟩
  · rintro a rfl h
    have hv := validateAmount_over_balance h (balances_nonneg fromV)
    rw [mem_transfer_errors, hv]
    right; right; left
    exact ⟨rfl, rfl⟩
  · intro h
    rw [mem_transfer_errors]
    right; right; right
    exact ⟨h, rfl⟩
  · rintro a rfl h
    have hb : balances fromV < a := lt_of_le_of_lt (balances_le fromV) h
    have hv := validateAmount_over_balance hb (balances_nonneg fromV)
    intro hmem
    rw [mem_transfer_errors, hv] at hmem
    rcases hmem with ⟨_, habs⟩ | ⟨_, _, habs⟩ | ⟨_, habs⟩ | ⟨_, habs⟩
    · exact absurd habs (by decide)
    · exact absurd habs (by decide)
    · rcases balances_cases fromV with hb0 | hb0 | hb0 <;>
        rw [hb0] at habs <;> exact absurd habs (by decide)
    · exact absurd habs (by decide)

/-- Claim C2 witness: several rules at concrete inputs, including the
empty destination together with a missing amount parse. -/
theorem transfer_collects_rule_errors_witness :
    ("Destination account is required" ∈
      (validateTransfer "  " none "" "001").errors) ∧
    ("Please enter a valid amount" ∈
      (validateTransfer "  " none "" "001").errors) ∧
    ("Description must be 40 characters or less" ∈
      (validateTransfer "  " none
        "0123456789012345678901234567890123456789012345" "001").errors) ∧
    ("Transfer limit is $10,000.00 per transaction" ∉
      (validateTransfer "062-000 12345678" (some 20000) "" "002").errors) :=
  ⟨(transfer_collects_rule_errors "  " "" "001" none).1 (by decide),
   (transfer_collects_rule_errors "  " "" "001" none).2.2.1 rfl,
   (transfer_collects_rule_errors "  "
      "0123456789012345678901234567890123456789012345" "001"
      none).2.2.2.2.2.1 (by decide),
   (transfer_collects_rule_errors "062-000 12345678" "" "002"
      (some 20000)).2.2.2.2.2.2 20000 rfl (by decide)⟩

/-- Claim C2 counterexample: the ceiling rule is violated at 20000 on
account 002 yet its message is absent from the errors list. -/
theorem transfer_ceiling_rule_message_absent :
    ((20000 : ℚ) > 10000) ∧
    "Transfer limit is $10,000.00 per transaction" ∉
      (validateTransfer "062-000 12345678" (some 20000) "" "002").errors := by
  decide

/-- Claim C3: the destination is accepted exactly when its trimmed
form matches the pattern 3 digits, optional hyphen, 3 digits, optional
whitespace, 6 to 9 digits; every non-empty non-matching destination
yields the format error, and an empty one the required error. -/
theorem transfer_destination_format (toV : String) (amount : Option ℚ)
    (descV fromV : String) :
    (validateBSBAccount toV = true ↔ bsbPattern (jsTrim toV).toList) ∧
    ("Invalid BSB-Account format. Use: 062-000 12345678" ∈
        (validateTransfer toV amount descV fromV).errors ↔
      (jsTrim toV ≠ "" ∧ ¬ bsbPattern (jsTrim toV).toList)) ∧
    ("Destination account is required" ∈
        (validateTransfer toV amount descV fromV).errors ↔
      jsTrim toV = "") ∧
    validateBSBAccount "062-000 12345678" = true ∧
    validateBSBAccount "062000123456" = true ∧
    validateBSBAccount "06-2000 12345678" = false ∧
    validateBSBAccount "062-000 12345" = false ∧
    validateBSBAccount "062-000 1234567890" = false := by
  have hiff : validateBSBAccount toV = true ↔
      bsbPattern (jsTrim toV).toList :=
    matchBSB_iff (jsTrim toV).toList
  refine ⟨hiff, ?_, ?_, by decide, by decide, by decide, by decide,
    by decide⟩
  · rw [mem_transfer_errors]
    constructor
    · rintro (⟨_, habs⟩ | ⟨hne, hbsb, _⟩ | ⟨_, habs⟩ | ⟨_, habs⟩)
      · exact absurd habs (by decide)
      · refine ⟨hne, ?_⟩
        intro hpat
        have htrue : validateBSBAccount toV = true := hiff.mpr hpat
        rw [validateBSBAccount_jsTrim, htrue] at hbsb
        simp at hbsb
      · rcases validateAmount_error_cases amount (balances fromV) with
          h | h | h | h | h
        · rw [h] at habs
          exact absurd habs (by decide)
        · rw [h] at habs
          exact absurd habs (by decide)
        · rcases balances_cases fromV with hb0 | hb0 | hb0 <;>
            rw [hb0] at h habs <;> rw [h] at habs <;>
            exact absurd habs (by decide)
        · rw [h] at habs
          exact absurd habs (by decide)
        · rw [h] at habs
          exact absurd habs (by decide)
      · exact absurd habs (by decide)
    · rintro ⟨hne, hnp⟩
      right; left
      refine ⟨hne, ?_, rfl⟩
      rw [validateBSBAccount_jsTrim]
      refine Bool.eq_false_iff.mpr ?_
      intro htrue
      exact hnp (hiff.mp htrue)
  · rw [mem_transfer_errors]
    constructor
    · rintro (⟨h, _⟩ | ⟨_, _, habs⟩ | ⟨_, habs⟩ | ⟨_, habs⟩)
      · exact h
      · exact absurd habs (by decide)
      · rcases validateAmount_error_cases amount (balances fromV) with
          h | h | h | h | h
        · rw [h] at habs
          exact absurd habs (by decide)
        · rw [h] at habs
          exact absurd habs (by decide)
        · rcases balances_cases fromV with hb0 | hb0 | hb0 <;>
            rw [hb0] at h habs <;> rw [h] at habs <;>
            exact absurd habs (by decide)
        · rw [h] at habs
          exact absurd habs (by decide)
        · rw [h] at habs
          exact absurd habs (by decide)
      · exact absurd habs (by decide)
    · intro h
      exact Or.inl ⟨h, rfl⟩

/-- Claim C4: the required-field, minimum-length and acceptance rules
of the login validator. -/
theorem login_field_rules (custV passV : String) :
    (jsTrim custV = "" →
      "Customer ID is required" ∈ (validateLogin custV passV).errors) ∧
    (jsTrim passV = "" →
      "Password is required" ∈ (validateLogin custV passV).errors) ∧
    ((jsTrim custV = "" ∨ jsTrim passV = "") →
      (validateLogin custV passV).isValid = false) ∧
    (1 ≤ (jsTrim passV).length → (jsTrim passV).length ≤ 3 →
      "Password must be at least 4 characters" ∈
        (validateLogin custV passV).errors) ∧
    (jsTrim custV ≠ "" → 4 ≤ (jsTrim passV).length →
      (validateLogin custV passV).isValid = true ∧
      (validateLogin custV passV).errors = []) := by
  refine ⟨?_, ?_, ?_, ?_, ?_⟩
  · intro h
    rw [mem_login_errors]
    exact Or.inl ⟨h, rfl⟩
  · intro h
    rw [mem_login_errors]
    exact Or.inr (Or.inl ⟨h, rfl⟩)
  · intro h
    refine Bool.eq_false_iff.mpr ?_
    intro htrue
    rw [login_isValid_iff] at htrue
    obtain ⟨hc, hp⟩ := htrue
    rcases h with h | h
    · exact hc h
    · rw [h] at hp
      exact absurd hp (by decide)
  · intro h1 h3
    rw [mem_login_errors]
    right; right
    refine ⟨?_, by omega, rfl⟩
    intro h0
    rw [h0] at h1
    exact absurd h1 (by decide)
  · intro hc hp
    have hpne : jsTrim passV ≠ "" := by
      intro h0
      rw [h0] at hp
      exact absurd hp (by decide)
    constructor
    · rw [login_isValid_iff]
      exact ⟨hc, hp⟩
    · rw [login_errors_eq]
      rw [if_neg hc, if_neg hpne, if_neg (by omega)]
      rfl

/-- Claim C4 witness: the three rules at concrete inputs. -/
theorem login_field_rules_witness :
    ("Customer ID is required" ∈ (validateLogin "" "abcd").errors) ∧
    ("Password must be at least 4 characters" ∈
      (validateLogin "A1" "abc").errors) ∧
    (validateLogin "A1" "abcd").isValid = true :=
  ⟨(login_field_rules "" "abcd").1 (by decide),
   (login_field_rules "A1" "abc").2.2.2.1 (by decide) (by decide),
   ((login_field_rules "A1" "abcd").2.2.2.2 (by decide) (by decide)).1⟩

/-- Claim C5 (amended): the shared sanitization escapes the ampersand,
the angle brackets (and the no-break space) and leaves every other
character — including both quote characters — unchanged; a string with
none of those characters is returned as it is, and no output ever
contains a raw angle bracket. -/
theorem sanitize_escapes_markup_not_quotes :
    (∀ s : String,
      (∀ c ∈ s.toList, c ≠ '&' ∧ c ≠ '<' ∧ c ≠ '>' ∧ c ≠ Char.ofNat 160) →
        sanitizeInput s = s) ∧
    sanitizeInput "<" = "&lt;" ∧
    sanitizeInput ">" = "&gt;" ∧
    sanitizeInput "&" = "&amp;" ∧
    sanitizeInput "\"" = "\"" ∧
    sanitizeInput (String.mk [Char.ofNat 39]) = String.mk [Char.ofNat 39] ∧
    (∀ s : String,
      '<' ∉ (sanitizeInput s).toList ∧ '>' ∉ (sanitizeInput s).toList) := by
  refine ⟨?_, by decide, by decide, by decide, by decide, by decide, ?_⟩
  · intro s hs
    cases s with
    | mk l =>
      have h := sanitize_plain_aux l hs
      show String.mk (((String.mk l).toList.map escapeHtmlChar).flatten) =
        String.mk l
      exact congrArg String.mk h
  · intro s
    constructor
    · intro hmem
      rw [show (sanitizeInput s).toList =
          (s.toList.map escapeHtmlChar).flatten from rfl,
        List.mem_flatten] at hmem
      obtain ⟨l, hl, hcl⟩ := hmem
      rw [List.mem_map] at hl
      obtain ⟨c, _, rfl⟩ := hl
      exact lt_not_mem_escapeHtmlChar c hcl
    · intro hmem
      rw [show (sanitizeInput s).toList =
          (s.toList.map escapeHtmlChar).flatten from rfl,
        List.mem_flatten] at hmem
      obtain ⟨l, hl, hcl⟩ := hmem
      rw [List.mem_map] at hl
      obtain ⟨c, _, rfl⟩ := hl
      exact gt_not_mem_escapeHtmlChar c hcl

/-- Claim C5 witness: a plain string is passed through unchanged. -/
theorem sanitize_escapes_markup_not_quotes_witness :
    sanitizeInput "abc 123" = "abc 123" :=
  sanitize_escapes_markup_not_quotes.1 "abc 123" (by decide)

/-- Claim C5 counterexample: the double quote is NOT entity-escaped by
the code, while the sanitization the spec describes escapes it. -/
theorem sanitize_quote_unescaped :
    sanitizeInput "\"" ≠ specSanitize "\"" ∧ sanitizeInput "\"" = "\"" := by
  decide

/-- Claim C6: the session flag round-trips and anything other than the
sentinel "1" (including an absent value) reads as unauthenticated. -/
theorem session_flag_roundtrip :
    isAuthed (setAuthed true) = true ∧
    isAuthed (setAuthed false) = false ∧
    isAuthed none = false ∧
    ∀ v : String, v ≠ "1" → isAuthed (some v) = false := by
  refine ⟨rfl, rfl, rfl, ?_⟩
  intro v hv
  simp [isAuthed, hv]

/-- Claim C6 witness: the stored value "0" reads as unauthenticated. -/
theorem session_flag_roundtrip_witness : isAuthed (some "0") = false :=
  session_flag_roundtrip.2.2.2 "0" (by decide)

/-- Claim C7: for each id of the closed enumeration, `showScreen`
leaves exactly that screen visible and the tab bar visible exactly on
the app screens; showing the dashboard twice gives the same visibility
pattern both times. -/
theorem showScreen_exclusive_visibility :
    (∀ (id : String) (s : UIState),
      (id = "login" ∨ id = "dashboard" ∨ id = "transactions" ∨
        id = "transfer") →
      (((showScreen id s).loginHidden = false ↔ id = "login") ∧
       ((showScreen id s).dashboardHidden = false ↔ id = "dashboard") ∧
       ((showScreen id s).transactionsHidden = false ↔
         id = "transactions") ∧
       ((showScreen id s).transferHidden = false ↔ id = "transfer") ∧
       ((showScreen id s).tabNavHidden = false ↔
         (id = "dashboard" ∨ id = "transactions" ∨ id = "transfer")))) ∧
    (∀ s : UIState,
      ((showScreen "dashboard" s).dashboardHidden = false ∧
       (showScreen "dashboard" s).loginHidden = true ∧
       (showScreen "dashboard" s).transactionsHidden = true ∧
       (showScreen "dashboard" s).transferHidden = true ∧
       (showScreen "dashboard" s).tabNavHidden = false) ∧
      ((showScreen "dashboard" (showScreen "dashboard" s)).dashboardHidden
          = false ∧
       (showScreen "dashboard" (showScreen "dashboard" s)).loginHidden
          = true ∧
       (showScreen "dashboard" (showScreen "dashboard" s)).transactionsHidden
          = true ∧
       (showScreen "dashboard" (showScreen "dashboard" s)).transferHidden
          = true ∧
       (showScreen "dashboard" (showScreen "dashboard" s)).tabNavHidden
          = false)) := by
  constructor
  · rintro id s (rfl | rfl | rfl | rfl) <;>
      refine ⟨?_, ?_, ?_, ?_, ?_⟩ <;> simp [showScreen]
  · intro s
    refine ⟨⟨?_, ?_, ?_, ?_, ?_⟩, ?_, ?_, ?_, ?_, ?_⟩ <;> simp [showScreen]

/-- A concrete visibility state for witnesses: login visible. -/
def uiDemo : UIState :=
  ⟨false, true, true, true, false, true, true, true, true, false, false,
    false⟩

/-- Claim C7 witness: showing the transactions screen on a concrete
state reveals it and the tab bar. -/
theorem showScreen_exclusive_visibility_witness :
    (showScreen "transactions" uiDemo).transactionsHidden = false ∧
    (showScreen "transactions" uiDemo).tabNavHidden = false := by
  have h := showScreen_exclusive_visibility.1 "transactions" uiDemo
    (Or.inr (Or.inr (Or.inl rfl)))
  exact ⟨h.2.2.1.mpr rfl, h.2.2.2.2.mpr (Or.inr (Or.inl rfl))⟩

/-- A concrete application state for witnesses: fresh, logged out. -/
def demoState : AppState :=
  ⟨uiDemo, none, "", "", [], [], false, false, true⟩

/-- Claim C8 (amended): when validation fails, each submit handler
shows the first error as the transient notification; the transfer
handler also shows it as the inline status, while the login handler
shows ALL errors joined with a period separator inline; the handler
then returns with no other state change — the session flag, the
screens, the started delays, the disabled flags and the logout button
are untouched. -/
theorem submit_failure_aborts (custV passV toV descV fromV : String)
    (amount : Option ℚ) (s : AppState) :
    ((validateLogin custV passV).isValid = false →
      loginSubmit custV passV s =
        { s with
          loginStatusText :=
            String.intercalate ". " (validateLogin custV passV).errors ++ ".",
          toasts := s.toasts ++
            [(validateLogin custV passV).errors.headD ""] }) ∧
    ((validateTransfer toV amount descV fromV).isValid = false →
      transferSubmit toV amount descV fromV s =
        { s with
          transferStatusText :=
            (validateTransfer toV amount descV fromV).errors.headD "",
          toasts := s.toasts ++
            [(validateTransfer toV amount descV fromV).errors.headD ""] }) := by
  constructor
  · intro hv
    unfold loginSubmit
    rw [if_neg (by simp [hv])]
  · intro hv
    unfold transferSubmit
    rw [if_neg (by simp [hv])]

/-- Claim C8 witness: an empty transfer submission only records the
inline status and the toast. -/
theorem submit_failure_aborts_witness :
    transferSubmit "" none "" "001" demoState =
      { demoState with
        transferStatusText :=
          (validateTransfer "" none "" "001").errors.headD "",
        toasts := demoState.toasts ++
          [(validateTransfer "" none "" "001").errors.headD ""] } :=
  (submit_failure_aborts "" "" "" "" "001" none demoState).2 (by decide)

/-- Claim C8 counterexample: on a failing login submission the inline
status is the JOINED error text, not the first error of the list. -/
theorem login_inline_not_first_error :
    (loginSubmit "" "" demoState).loginStatusText ≠
      (validateLogin "" "").errors.headD "" ∧
    (loginSubmit "" "" demoState).loginStatusText =
      "Customer ID is required. Password is required." := by
  decide

/-- Claim C9: the login scenario with customerId A1 and password abcd
validates; after the handler (including its simulated 1000 ms delay)
completes, the session flag reads authenticated and the dashboard is
the one visible screen. -/
theorem login_success_scenario :
    (validateLogin "A1" "abcd").isValid = true ∧
    ∀ s : AppState,
      isAuthed (loginSubmit "A1" "abcd" s).store = true ∧
      (loginSubmit "A1" "abcd" s).delays = s.delays ++ [1000] ∧
      (loginSubmit "A1" "abcd" s).ui.dashboardHidden = false ∧
      (loginSubmit "A1" "abcd" s).ui.loginHidden = true ∧
      (loginSubmit "A1" "abcd" s).ui.transactionsHidden = true ∧
      (loginSubmit "A1" "abcd" s).ui.transferHidden = true ∧
      (loginSubmit "A1" "abcd" s).ui.tabNavHidden = false := by
  refine ⟨by decide, ?_⟩
  intro s
  have hv : (validateLogin "A1" "abcd").isValid = true := by decide
  unfold loginSubmit
  rw [if_pos (by simp [hv])]
  refine ⟨rfl, rfl, ?_, ?_, ?_, ?_, ?_⟩ <;> simp [showScreen]

/-- Claim C10: an unknown source account has balance zero, so every
positive amount is rejected as insufficient funds. -/
theorem unknown_account_zero_balance (toV descV fromV : String) (a : ℚ) :
    fromV ≠ "001" → fromV ≠ "002" → 0 < a →
      ("Insufficient funds. Available: $0.00" ∈
        (validateTransfer toV (some a) descV fromV).errors ∧
       (validateTransfer toV (some a) descV fromV).isValid = false) := by
  intro h1 h2 h0
  have hb : balances fromV = 0 := by
    unfold balances
    rw [if_neg h1, if_neg h2]
  have hv : validateAmount (some a) (balances fromV) =
      ⟨false, some ("Insufficient funds. Available: $" ++
        toFixed2 (balances fromV))⟩ :=
    validateAmount_over_balance (by rw [hb]; exact h0) (balances_nonneg fromV)
  constructor
  · rw [mem_transfer_errors, hv, hb]
    right; right; left
    exact ⟨rfl, by decide⟩
  · refine Bool.eq_false_iff.mpr ?_
    intro htrue
    rw [transfer_isValid_iff] at htrue
    obtain ⟨_, _, hval, _⟩ := htrue
    rw [hv] at hval
    simp at hval

/-- Claim C10 witness: account id ACC9 is outside the mapping, so a
transfer of 5 dollars is rejected for insufficient funds. -/
theorem unknown_account_zero_balance_witness :
    "Insufficient funds. Available: $0.00" ∈
      (validateTransfer "062-000 12345678" (some 5) "" "ACC9").errors ∧
    (validateTransfer "062-000 12345678" (some 5) "" "ACC9").isValid
      = false :=
  unknown_account_zero_balance "062-000 12345678" "" "ACC9" 5 (by decide)
    (by decide) (by decide)

end Bank
